import Mathlib

/-!
Shallow embedding of `datafusion/functions-array/src/udf.rs`: the arrow
`DataType` fragment used there, the per-function return-type resolvers, and
the dispatch decisions of `Range::invoke` / `GenSeries::invoke`.

Rust `arg_types[i]` indexing out of bounds is a panic; it is modelled by the
explicit `RTResult.panicked` / `InvokeResult.panicked` outcomes.  Helper code
of this repository that is not part of the source file (`list_ndims`,
`get_wider_type`, signature acceptance) is modelled from the spec and marked
as such in its doc comment.
-/

namespace DFArrayUdf

/-- The fragment of `arrow::datatypes::DataType` used by the source file.
`List`, `LargeList` and `FixedSizeList` carry their `Field` inlined as
(field name, element type, nullable); `Interval` is `Interval(MonthDayNano)`. -/
inductive DataType : Type where
  | Null : DataType
  | Int64 : DataType
  | UInt64 : DataType
  | Utf8 : DataType
  | Date32 : DataType
  | Interval : DataType
  | List (fieldName : String) (elem : DataType) (nullable : Bool) : DataType
  | LargeList (fieldName : String) (elem : DataType) (nullable : Bool) : DataType
  | FixedSizeList (fieldName : String) (elem : DataType) (nullable : Bool) (size : Int) : DataType
deriving DecidableEq, Repr

/-- `arrow`'s `DataType::equals_datatype`: logical type equality, ignoring
field names and nullability of container element fields. -/
def DataType.equals_datatype : DataType → DataType → Bool
  | .Null, .Null => true
  | .Int64, .Int64 => true
  | .UInt64, .UInt64 => true
  | .Utf8, .Utf8 => true
  | .Date32, .Date32 => true
  | .Interval, .Interval => true
  | .List _ e₁ _, .List _ e₂ _ => e₁.equals_datatype e₂
  | .LargeList _ e₁ _, .LargeList _ e₂ _ => e₁.equals_datatype e₂
  | .FixedSizeList _ e₁ _ n₁, .FixedSizeList _ e₂ _ n₂ =>
      e₁.equals_datatype e₂ && n₁ == n₂
  | _, _ => false

/-- The two failure kinds of `datafusion_common::DataFusionError` raised in the
source file: `plan_err!` (planning failure) and `exec_err!` (execution
failure). -/
inductive FnError : Type where
  | plan (msg : String) : FnError
  | exec (msg : String) : FnError
deriving DecidableEq, Repr

/-- Outcome of a return-type resolver: `Ok(DataType)`, `Err(e)`, or a Rust
panic (out-of-bounds slice indexing such as `arg_types[0]` on an empty
slice). -/
inductive RTResult : Type where
  | ok (t : DataType) : RTResult
  | err (e : FnError) : RTResult
  | panicked : RTResult
deriving DecidableEq, Repr

/-- The kernels `Range::invoke` / `GenSeries::invoke` can route to. -/
inductive KernelId : Type where
  | genRange : KernelId
  | genRangeDate : KernelId
deriving DecidableEq, Repr

/-- Dispatch decision of an `invoke` implementation: which kernel is called
and with which inclusivity flag, or an error, or a panic. -/
inductive InvokeResult : Type where
  | kernel (k : KernelId) (inclusive : Bool) : InvokeResult
  | err (e : FnError) : InvokeResult
  | panicked : InvokeResult
deriving DecidableEq, Repr

/-- True exactly for the three container kinds `List`, `LargeList`,
`FixedSizeList` (the pattern `List(_) | LargeList(_) | FixedSizeList(_, _)`
recurring in the source file's matches). -/
def isContainer : DataType → Bool
  | .List _ _ _ | .LargeList _ _ _ | .FixedSizeList _ _ _ _ => true
  | _ => false

/-- True exactly for the `List` container kind. -/
def isListType : DataType → Bool
  | .List _ _ _ => true
  | _ => false

/-- Element type of a container kind, `none` for non-containers. -/
def containerElem : DataType → Option DataType
  | .List _ e _ => some e
  | .LargeList _ e _ => some e
  | .FixedSizeList _ e _ _ => some e
  | _ => none

/-- Modelled from the spec: `datafusion_common::utils::list_ndims` is not part
of this source file; the spec defines `ndims(t)` as 0 for non-containers and
`1 + ndims(elem)` for any container kind. -/
def list_ndims : DataType → Nat
  | .List _ e _ => 1 + list_ndims e
  | .LargeList _ e _ => 1 + list_ndims e
  | .FixedSizeList _ e _ _ => 1 + list_ndims e
  | _ => 0

/-- Modelled from the spec: `datafusion_expr`'s `get_wider_type` is not part
of this source file; the spec defines `widen(a, b)` as the exact match when
the two types are equal and otherwise a failure/unsupported-combination
signal. -/
def get_wider_type (a b : DataType) : Except FnError DataType :=
  if a = b then Except.ok b
  else Except.error (FnError.plan "unsupported type combination")

/-- Canonical name of `array_to_string` (`ArrayToString::name`). -/
def ArrayToString.name : String := "array_to_string"

/-- Alias list built in `ArrayToString::new`. -/
def ArrayToString.aliases : List String :=
  ["array_to_string", "list_to_string", "array_join", "list_join"]

/-- `ArrayToString::return_type`: `Utf8` when `arg_types[0]` is a container
kind, otherwise a planning failure; panics on an empty argument list. -/
def ArrayToString.return_type : List DataType → RTResult
  | [] => RTResult.panicked
  | t :: _ =>
    match t with
    | .List _ _ _ | .LargeList _ _ _ | .FixedSizeList _ _ _ _ => RTResult.ok DataType.Utf8
    | _ => RTResult.err (FnError.plan
        "The array_to_string function can only accept List/LargeList/FixedSizeList.")

/-- Canonical name of `range` (`Range::name`). -/
def Range.name : String := "range"

/-- Alias list built in `Range::new`. -/
def Range.aliases : List String := ["range"]

/-- The `Exact` alternatives of the `Signature::one_of` built in
`Range::new`. -/
def Range.signature : List (List DataType) :=
  [[DataType.Int64],
   [DataType.Int64, DataType.Int64],
   [DataType.Int64, DataType.Int64, DataType.Int64],
   [DataType.Date32, DataType.Date32, DataType.Interval]]

/-- `Range::return_type`: `List(Field::new("item", arg_types[0], true))`;
panics on an empty argument list. -/
def Range.return_type : List DataType → RTResult
  | [] => RTResult.panicked
  | t :: _ => RTResult.ok (DataType.List "item" t true)

/-- `Range::invoke` dispatch decision on the runtime type of the first
normalized array: `gen_range(…, false)` for `Int64`, `gen_range_date(…, false)`
for `Date32`, otherwise `exec_err!`; panics on an empty argument list. -/
def Range.invoke : List DataType → InvokeResult
  | [] => InvokeResult.panicked
  | t :: _ =>
    match t with
    | .Int64 => InvokeResult.kernel KernelId.genRange false
    | .Date32 => InvokeResult.kernel KernelId.genRangeDate false
    | _ => InvokeResult.err (FnError.exec "unsupported type for range")

/-- Canonical name of `generate_series` (`GenSeries::name`). -/
def GenSeries.name : String := "generate_series"

/-- Alias list built in `GenSeries::new`. -/
def GenSeries.aliases : List String := ["generate_series"]

/-- The `Exact` alternatives of the `Signature::one_of` built in
`GenSeries::new`. -/
def GenSeries.signature : List (List DataType) :=
  [[DataType.Int64],
   [DataType.Int64, DataType.Int64],
   [DataType.Int64, DataType.Int64, DataType.Int64],
   [DataType.Date32, DataType.Date32, DataType.Interval]]

/-- `GenSeries::return_type`: `List(Field::new("item", arg_types[0], true))`;
panics on an empty argument list. -/
def GenSeries.return_type : List DataType → RTResult
  | [] => RTResult.panicked
  | t :: _ => RTResult.ok (DataType.List "item" t true)

/-- `GenSeries::invoke` dispatch decision: same cases as `Range::invoke` but
the kernels are called with inclusivity flag `true`. -/
def GenSeries.invoke : List DataType → InvokeResult
  | [] => InvokeResult.panicked
  | t :: _ =>
    match t with
    | .Int64 => InvokeResult.kernel KernelId.genRange true
    | .Date32 => InvokeResult.kernel KernelId.genRangeDate true
    | _ => InvokeResult.err (FnError.exec "unsupported type for range")

/-- Canonical name of `array_dims` (`ArrayDims::name`). -/
def ArrayDims.name : String := "array_dims"

/-- Alias list built in `ArrayDims::new`. -/
def ArrayDims.aliases : List String := ["array_dims", "list_dims"]

/-- `ArrayDims::return_type`: `List(Field::new("item", UInt64, true))` for a
container argument, otherwise a planning failure; panics on an empty argument
list. -/
def ArrayDims.return_type : List DataType → RTResult
  | [] => RTResult.panicked
  | t :: _ =>
    match t with
    | .List _ _ _ | .LargeList _ _ _ | .FixedSizeList _ _ _ _ =>
        RTResult.ok (DataType.List "item" DataType.UInt64 true)
    | _ => RTResult.err (FnError.plan
        "The array_dims function can only accept List/LargeList/FixedSizeList.")

/-- Canonical name of `cardinality` (`Cardinality::name`). -/
def Cardinality.name : String := "cardinality"

/-- Alias list built in `Cardinality::new`. -/
def Cardinality.aliases : List String := ["cardinality"]

/-- `Cardinality::return_type`: `UInt64` for a container argument, otherwise a
planning failure; panics on an empty argument list. -/
def Cardinality.return_type : List DataType → RTResult
  | [] => RTResult.panicked
  | t :: _ =>
    match t with
    | .List _ _ _ | .LargeList _ _ _ | .FixedSizeList _ _ _ _ => RTResult.ok DataType.UInt64
    | _ => RTResult.err (FnError.plan
        "The cardinality function can only accept List/LargeList/FixedSizeList.")

/-- Canonical name of `array_ndims` (`ArrayNdims::name`). -/
def ArrayNdims.name : String := "array_ndims"

/-- Alias list built in `ArrayNdims::new`. -/
def ArrayNdims.aliases : List String := ["array_ndims", "list_ndims"]

/-- `ArrayNdims::return_type`: `UInt64` for a container argument, otherwise a
planning failure; panics on an empty argument list. -/
def ArrayNdims.return_type : List DataType → RTResult
  | [] => RTResult.panicked
  | t :: _ =>
    match t with
    | .List _ _ _ | .LargeList _ _ _ | .FixedSizeList _ _ _ _ => RTResult.ok DataType.UInt64
    | _ => RTResult.err (FnError.plan
        "The array_ndims function can only accept List/LargeList/FixedSizeList.")

/-- Canonical name of `array_append` (`ArrayAppend::name`). -/
def ArrayAppend.name : String := "array_append"

/-- Alias list built in `ArrayAppend::new`. -/
def ArrayAppend.aliases : List String :=
  ["array_append", "list_append", "array_push_back", "list_push_back"]

/-- `ArrayAppend::return_type`: `Ok(arg_types[0].clone())`; panics on an empty
argument list. -/
def ArrayAppend.return_type : List DataType → RTResult
  | [] => RTResult.panicked
  | t :: _ => RTResult.ok t

/-- Canonical name of `array_prepend` (`ArrayPrepend::name`). -/
def ArrayPrepend.name : String := "array_prepend"

/-- Alias list built in `ArrayPrepend::new`. -/
def ArrayPrepend.aliases : List String :=
  ["array_prepend", "list_prepend", "array_push_front", "list_push_front"]

/-- `ArrayPrepend::return_type`: `Ok(arg_types[1].clone())`; panics when fewer
than two argument types are given. -/
def ArrayPrepend.return_type : List DataType → RTResult
  | _ :: u :: _ => RTResult.ok u
  | _ => RTResult.panicked

/-- Canonical name of `array_concat` (`ArrayConcat::name`). -/
def ArrayConcat.name : String := "array_concat"

/-- Alias list built in `ArrayConcat::new`. -/
def ArrayConcat.aliases : List String :=
  ["array_concat", "array_cat", "list_concat", "list_cat"]

/-- The loop of `ArrayConcat::return_type`, threading the mutable locals
`expr_type` and `max_dims` through the remaining argument types.  Each
argument must be a `List`; a `List` whose element type equals `Null` is
skipped; otherwise `max_dims.cmp(&dims)` decides between keeping, widening,
and adopting. -/
def arrayConcatGo : List DataType → DataType → Nat → RTResult
  | [], expr_type, _ => RTResult.ok expr_type
  | arg :: rest, expr_type, max_dims =>
    match arg with
    | .List _ elem _ =>
      if elem.equals_datatype DataType.Null then
        arrayConcatGo rest expr_type max_dims
      else
        match compare max_dims (list_ndims arg) with
        | Ordering.gt => arrayConcatGo rest expr_type max_dims
        | Ordering.eq =>
          match get_wider_type expr_type arg with
          | Except.ok w => arrayConcatGo rest w max_dims
          | Except.error e => RTResult.err e
        | Ordering.lt => arrayConcatGo rest arg (list_ndims arg)
    | _ => RTResult.err (FnError.plan
        "The array_concat function can only accept list as the args.")

/-- `ArrayConcat::return_type`: run the loop from `expr_type = Null`,
`max_dims = 0`. -/
def ArrayConcat.return_type (arg_types : List DataType) : RTResult :=
  arrayConcatGo arg_types DataType.Null 0

/-- Canonical name of `make_array` (`MakeArray::name`). -/
def MakeArray.name : String := "make_array"

/-- Alias list built in `MakeArray::new`. -/
def MakeArray.aliases : List String := ["make_array", "make_list"]

/-- The loop of `MakeArray::return_type`: first argument type not equal to
`Null` in left-to-right order, `Null` when every argument type is `Null`. -/
def firstNonNull : List DataType → DataType
  | [] => DataType.Null
  | t :: rest => if t.equals_datatype DataType.Null then firstNonNull rest else t

/-- `MakeArray::return_type`: `List(Field::new("item", Null, true))` for zero
arguments, otherwise `List(Field::new("item", e, true))` where `e` is the
first non-`Null` argument type (or `Null` if all are `Null`). -/
def MakeArray.return_type : List DataType → RTResult
  | [] => RTResult.ok (DataType.List "item" DataType.Null true)
  | arg_types => RTResult.ok (DataType.List "item" (firstNonNull arg_types) true)

/-- Modelled from the spec: `Signature::variadic_any` acceptance (the
signature-matching code is not part of this source file) — any number of
arguments of any type, length ≥ 0. -/
def variadicAnyAccepts (_ : List DataType) : Bool := true

/-- Modelled from the spec: acceptance of a `Signature::one_of` whose
alternatives are all `Exact` lists (the signature-matching code is not part of
this source file) — the call is accepted when some alternative matches the
argument types positionally and exactly. -/
def oneOfExactAccepts (alts : List (List DataType)) (arg_types : List DataType) : Bool :=
  alts.any (fun alt => decide (alt = arg_types))

/-- Modelled from the spec: `Signature::array_and_element` acceptance (the
signature-matching code is not part of this source file) — exactly two
arguments, the first a container kind, the second unconstrained. -/
def arrayAndElementAccepts : List DataType → Bool
  | [t, _] => isContainer t
  | _ => false

/-- Modelled from the spec: the planner's control flow around a descriptor
(not part of this source file) — it asks the Signature Pattern to accept the
static argument types and, on rejection, raises a planning failure without
consulting the Return-Type Resolver. -/
def plannerResolve (accepts : List DataType → Bool) (rt : List DataType → RTResult)
    (arg_types : List DataType) : RTResult :=
  if accepts arg_types then rt arg_types
  else RTResult.err (FnError.plan "No function matches the given argument types")

/-- The dimension-tracked widening loop exactly as the claim words it, over
container arguments of any of the three container kinds: skip a container
whose element type is `Null`; adopt the argument's type and depth when its
nesting depth strictly exceeds `max_dims`; widen on equal depth; ignore
strictly smaller depth.  Non-container arguments fail the call as in the
source. -/
def specConcatGo : List DataType → DataType → Nat → RTResult
  | [], expr_type, _ => RTResult.ok expr_type
  | arg :: rest, expr_type, max_dims =>
    match containerElem arg with
    | some elem =>
      if elem.equals_datatype DataType.Null then
        specConcatGo rest expr_type max_dims
      else
        match compare max_dims (list_ndims arg) with
        | Ordering.gt => specConcatGo rest expr_type max_dims
        | Ordering.eq =>
          match get_wider_type expr_type arg with
          | Except.ok w => specConcatGo rest w max_dims
          | Except.error e => RTResult.err e
        | Ordering.lt => specConcatGo rest arg (list_ndims arg)
    | none => RTResult.err (FnError.plan
        "The array_concat function can only accept list as the args.")

/-- The claim's dimension-tracked widening algorithm run from
`result_type = Null`, `max_dims = 0`. -/
def specConcatWiden (arg_types : List DataType) : RTResult :=
  specConcatGo arg_types DataType.Null 0

/-- True exactly for a `List` whose element type is `Null`. -/
def isListOfNull : DataType → Bool
  | .List _ .Null _ => true
  | _ => false

/-- Replace the inclusivity flag of a kernel dispatch decision, leaving
errors and panics unchanged; used to state that the two range-style
dispatchers differ only in that flag. -/
def setInclusive : InvokeResult → Bool → InvokeResult
  | InvokeResult.kernel k _, b => InvokeResult.kernel k b
  | r, _ => r

theorem concatGo_eq_specGo (ts : List DataType) : ∀ (et : DataType) (md : Nat),
    ts.all isListType = true → arrayConcatGo ts et md = specConcatGo ts et md := by
  induction ts with
  | nil => intro et md _; rfl
  | cons t rest ih =>
    intro et md h
    rw [List.all_cons, Bool.and_eq_true] at h
    obtain ⟨ht, hrest⟩ := h
    cases t
    case List nm e nb =>
      simp only [arrayConcatGo, specConcatGo, containerElem]
      split
      · exact ih _ _ hrest
      · cases hc : compare md (list_ndims (DataType.List nm e nb)) with
        | lt => exact ih _ _ hrest
        | gt => exact ih _ _ hrest
        | eq =>
          cases hw : get_wider_type et (DataType.List nm e nb) with
          | ok w => exact ih _ _ hrest
          | error e' => rfl
    all_goals exact absurd ht (by simp [isListType])

theorem concatGo_err_of_nonlist (ts : List DataType) : ∀ (et : DataType) (md : Nat),
    ts.all isListType = false →
    ∃ m, arrayConcatGo ts et md = RTResult.err (FnError.plan m) := by
  induction ts with
  | nil => intro et md h; simp at h
  | cons t rest ih =>
    intro et md h
    cases t
    case List nm e nb =>
      simp only [List.all_cons, isListType, Bool.true_and] at h
      by_cases he : e.equals_datatype DataType.Null = true
      · obtain ⟨m, hm⟩ := ih et md h
        exact ⟨m, by simp [arrayConcatGo, he, hm]⟩
      · cases hc : compare md (list_ndims (DataType.List nm e nb)) with
        | gt =>
          obtain ⟨m, hm⟩ := ih et md h
          exact ⟨m, by simp [arrayConcatGo, he, hc, hm]⟩
        | lt =>
          obtain ⟨m, hm⟩ := ih (DataType.List nm e nb) (list_ndims (DataType.List nm e nb)) h
          exact ⟨m, by simp [arrayConcatGo, he, hc, hm]⟩
        | eq =>
          cases hw : get_wider_type et (DataType.List nm e nb) with
          | ok w =>
            obtain ⟨m, hm⟩ := ih w md h
            exact ⟨m, by simp [arrayConcatGo, he, hc, hw, hm]⟩
          | error e' =>
            have hp : e' = FnError.plan "unsupported type combination" := by
              simp only [get_wider_type] at hw
              split at hw
              · exact Except.noConfusion hw
              · injection hw with h2
                exact h2.symm
            exact ⟨"unsupported type combination",
              by simp [arrayConcatGo, he, hc, hw, hp]⟩
    all_goals exact ⟨"The array_concat function can only accept list as the args.", rfl⟩

theorem concatGo_all_null (ts : List DataType) : ∀ (et : DataType) (md : Nat),
    ts.all isListOfNull = true → arrayConcatGo ts et md = RTResult.ok et := by
  induction ts with
  | nil => intro et md _; rfl
  | cons t rest ih =>
    intro et md h
    rw [List.all_cons, Bool.and_eq_true] at h
    obtain ⟨ht, hrest⟩ := h
    cases t
    case List nm e nb =>
      cases e
      case Null =>
        simpa [arrayConcatGo, DataType.equals_datatype] using ih _ _ hrest
      all_goals exact absurd ht (by simp [isListOfNull])
    all_goals exact absurd ht (by simp [isListOfNull])

/-- C1 (counterexample): at the single argument `LargeList(Int64)` the claim's
dimension-tracked widening algorithm (which skips/adopts/widens over any
container kind) yields `LargeList(Int64)`, but `ArrayConcat::return_type`
fails the call with a planning failure, because the source only matches the
`List` container kind. -/
theorem c1_counterexample :
    specConcatWiden [DataType.LargeList "item" DataType.Int64 true] =
      RTResult.ok (DataType.LargeList "item" DataType.Int64 true) ∧
    ArrayConcat.return_type [DataType.LargeList "item" DataType.Int64 true] =
      RTResult.err (FnError.plan
        "The array_concat function can only accept list as the args.") := by
  decide

/-- C1 (amended): `ArrayConcat::return_type` computes its result by the
dimension-tracked widening algorithm on argument lists consisting solely of
the `List` container kind; any argument list containing a non-`List` argument
in any position (including the other container kinds `LargeList` and
`FixedSizeList`) fails the whole call with a planning failure — with the
message naming the accepted `list` kind when the non-`List` argument heads
the list.  In particular `[List(Int64), List(List(Int64))]` in either order
yields `List(List(Int64))` and `[List(Null), List(Int64)]` yields
`List(Int64)`. -/
theorem c1_concat_widening :
    (∀ ts : List DataType, ts.all isListType = true →
      ArrayConcat.return_type ts = specConcatWiden ts) ∧
    (∀ ts : List DataType, ts.all isListType = false →
      ∃ m, ArrayConcat.return_type ts = RTResult.err (FnError.plan m)) ∧
    (∀ (t : DataType) (rest : List DataType), isListType t = false →
      ArrayConcat.return_type (t :: rest) = RTResult.err (FnError.plan
        "The array_concat function can only accept list as the args.")) ∧
    ArrayConcat.return_type
        [DataType.List "item" DataType.Int64 true,
         DataType.List "item" (DataType.List "item" DataType.Int64 true) true] =
      RTResult.ok (DataType.List "item" (DataType.List "item" DataType.Int64 true) true) ∧
    ArrayConcat.return_type
        [DataType.List "item" (DataType.List "item" DataType.Int64 true) true,
         DataType.List "item" DataType.Int64 true] =
      RTResult.ok (DataType.List "item" (DataType.List "item" DataType.Int64 true) true) ∧
    ArrayConcat.return_type
        [DataType.List "item" DataType.Null true, DataType.List "item" DataType.Int64 true] =
      RTResult.ok (DataType.List "item" DataType.Int64 true) := by
  refine ⟨fun ts h => concatGo_eq_specGo ts _ _ h,
    fun ts h => concatGo_err_of_nonlist ts _ _ h, ?_, by decide, by decide, by decide⟩
  intro t rest h
  cases t <;> first
    | rfl
    | exact absurd h (by simp [isListType])

/-- C1 (witness): the amended equivalence applied to the concrete all-`List`
argument list `[List(Null), List(Int64)]`, and the rejection conjunct applied
to the mixed argument list `[List(Int64), LargeList(Int64)]`, whose
non-`List` argument is not in head position. -/
theorem c1_witness :
    (([DataType.List "item" DataType.Null true,
       DataType.List "item" DataType.Int64 true].all isListType = true) ∧
     ArrayConcat.return_type
         [DataType.List "item" DataType.Null true, DataType.List "item" DataType.Int64 true] =
       specConcatWiden
         [DataType.List "item" DataType.Null true, DataType.List "item" DataType.Int64 true]) ∧
    (([DataType.List "item" DataType.Int64 true,
       DataType.LargeList "item" DataType.Int64 true].all isListType = false) ∧
     ∃ m, ArrayConcat.return_type
         [DataType.List "item" DataType.Int64 true,
          DataType.LargeList "item" DataType.Int64 true] =
       RTResult.err (FnError.plan m)) :=
  ⟨⟨by decide, c1_concat_widening.1 _ (by decide)⟩,
    ⟨by decide, c1_concat_widening.2.1 _ (by decide)⟩⟩

/-- C10: `ArrayConcat::return_type` returns the bare `Null` type, with no
failure, both on the empty argument list and on any argument list in which
every argument is a `List` whose element type is `Null`. -/
theorem c10_concat_null_inputs :
    ArrayConcat.return_type [] = RTResult.ok DataType.Null ∧
    (∀ ts : List DataType, ts.all isListOfNull = true →
      ArrayConcat.return_type ts = RTResult.ok DataType.Null) :=
  ⟨rfl, fun ts h => concatGo_all_null ts _ _ h⟩

/-- C10 (witness): the all-`List(Null)` case at the concrete input
`[List(Null)]`. -/
theorem c10_witness :
    ([DataType.List "item" DataType.Null true].all isListOfNull = true) ∧
    ArrayConcat.return_type [DataType.List "item" DataType.Null true] =
      RTResult.ok DataType.Null :=
  ⟨by decide, c10_concat_null_inputs.2 _ (by decide)⟩

theorem firstNonNull_all_null (ts : List DataType)
    (h : ts.all (fun t => decide (t = DataType.Null)) = true) :
    firstNonNull ts = DataType.Null := by
  induction ts with
  | nil => rfl
  | cons t rest ih =>
    rw [List.all_cons, Bool.and_eq_true] at h
    obtain ⟨ht, hrest⟩ := h
    rw [decide_eq_true_eq] at ht
    subst ht
    simpa [firstNonNull, DataType.equals_datatype] using ih hrest

/-- C2 (counterexample): `ArrayToString::return_type` panics (out-of-bounds
indexing) on the empty argument-type list even though its `variadic_any`
signature accepts it; `Range::return_type` silently succeeds on `[Utf8]`,
which its signature rejects; and `ArrayAppend::return_type` silently succeeds
on `[Int64, Int64]`, which its `array_and_element` signature rejects. -/
theorem c2_counterexample :
    variadicAnyAccepts [] = true ∧
    ArrayToString.return_type [] = RTResult.panicked ∧
    oneOfExactAccepts Range.signature [DataType.Utf8] = false ∧
    Range.return_type [DataType.Utf8] =
      RTResult.ok (DataType.List "item" DataType.Utf8 true) ∧
    arrayAndElementAccepts [DataType.Int64, DataType.Int64] = false ∧
    ArrayAppend.return_type [DataType.Int64, DataType.Int64] =
      RTResult.ok DataType.Int64 := by
  decide

/-- C2 (amended): on every non-empty argument-type list the resolvers of
`array_to_string`, `range` and `array_append` return a value or an explicit
planning failure and never panic — and `range`'s resolver is defined on every
tuple its signature accepts, all of which are non-empty — but on the empty
argument-type list all three panic via out-of-bounds indexing, and the
`range` and `array_append` resolvers silently succeed on tuples outside their
accepted domains (`range` on `[Utf8]`, `array_append` on `[Int64, Int64]`)
instead of failing. -/
theorem c2_resolver_totality :
    (∀ (t : DataType) (rest : List DataType),
      (∃ u, ArrayToString.return_type (t :: rest) = RTResult.ok u) ∨
      (∃ m, ArrayToString.return_type (t :: rest) = RTResult.err (FnError.plan m))) ∧
    (∀ (t : DataType) (rest : List DataType),
      Range.return_type (t :: rest) = RTResult.ok (DataType.List "item" t true)) ∧
    (∀ (t : DataType) (rest : List DataType),
      ArrayAppend.return_type (t :: rest) = RTResult.ok t) ∧
    ArrayToString.return_type [] = RTResult.panicked ∧
    Range.return_type [] = RTResult.panicked ∧
    ArrayAppend.return_type [] = RTResult.panicked ∧
    (oneOfExactAccepts Range.signature [DataType.Utf8] = false ∧
      Range.return_type [DataType.Utf8] =
        RTResult.ok (DataType.List "item" DataType.Utf8 true)) ∧
    (arrayAndElementAccepts [DataType.Int64, DataType.Int64] = false ∧
      ArrayAppend.return_type [DataType.Int64, DataType.Int64] =
        RTResult.ok DataType.Int64) := by
  refine ⟨?_, fun _ _ => rfl, fun _ _ => rfl, rfl, rfl, rfl, by decide, by decide⟩
  intro t rest
  cases t
  all_goals first
    | exact Or.inl ⟨_, rfl⟩
    | exact Or.inr ⟨_, rfl⟩

/-- C3: the `range` and `generate_series` signatures consist of exactly the
`Exact` alternatives `[Int64]`, `[Int64, Int64]`, `[Int64, Int64, Int64]` and
`[Date32, Date32, Interval(MonthDayNano)]`; every accepted argument list
resolves to `List(elem)` with `elem` the first argument's type; and the
argument list `[Utf8]` is rejected by the signature, which the planner
surfaces as a planning failure. -/
theorem c3_range_signature_and_result :
    Range.signature = GenSeries.signature ∧
    (∀ ts : List DataType, oneOfExactAccepts Range.signature ts = true ↔
      (ts = [DataType.Int64] ∨ ts = [DataType.Int64, DataType.Int64] ∨
       ts = [DataType.Int64, DataType.Int64, DataType.Int64] ∨
       ts = [DataType.Date32, DataType.Date32, DataType.Interval])) ∧
    (∀ (t : DataType) (rest : List DataType),
      oneOfExactAccepts Range.signature (t :: rest) = true →
      Range.return_type (t :: rest) = RTResult.ok (DataType.List "item" t true) ∧
      GenSeries.return_type (t :: rest) = RTResult.ok (DataType.List "item" t true)) ∧
    plannerResolve (oneOfExactAccepts Range.signature) Range.return_type [DataType.Utf8] =
      RTResult.err (FnError.plan "No function matches the given argument types") := by
  refine ⟨rfl, ?_, fun t rest _ => ⟨rfl, rfl⟩, by decide⟩
  intro ts
  constructor
  · intro h
    simp only [oneOfExactAccepts, Range.signature, List.any_cons, List.any_nil,
      Bool.or_eq_true, decide_eq_true_eq] at h
    rcases h with h | h | h | h
    · exact Or.inl h.symm
    · exact Or.inr (Or.inl h.symm)
    · exact Or.inr (Or.inr (Or.inl h.symm))
    · rcases h with h | h
      · exact Or.inr (Or.inr (Or.inr h.symm))
      · exact absurd h (by simp)
  · intro h
    rcases h with h | h | h | h <;> subst h <;> decide

/-- C3 (witness): the accepted singleton `[Int64]` resolves to
`List(Int64)` for both range-style functions. -/
theorem c3_witness :
    oneOfExactAccepts Range.signature [DataType.Int64] = true ∧
    Range.return_type [DataType.Int64] =
      RTResult.ok (DataType.List "item" DataType.Int64 true) ∧
    GenSeries.return_type [DataType.Int64] =
      RTResult.ok (DataType.List "item" DataType.Int64 true) :=
  ⟨by decide, (c3_range_signature_and_result.2.2.1 DataType.Int64 [] (by decide)).1,
    (c3_range_signature_and_result.2.2.1 DataType.Int64 [] (by decide)).2⟩

/-- C4: `MakeArray::return_type` returns `List(Null)` on zero arguments; on
one or more arguments it returns `List(e)` where `e` is the first non-`Null`
argument type in left-to-right order, or `Null` when every argument is
`Null`; in particular `[Null, Utf8]` yields `List(Utf8)`. -/
theorem c4_make_array_return_type :
    MakeArray.return_type [] = RTResult.ok (DataType.List "item" DataType.Null true) ∧
    (∀ ts : List DataType, ts ≠ [] →
      MakeArray.return_type ts = RTResult.ok (DataType.List "item" (firstNonNull ts) true)) ∧
    (∀ (t : DataType) (ts : List DataType), t ≠ DataType.Null → firstNonNull (t :: ts) = t) ∧
    (∀ ts : List DataType, firstNonNull (DataType.Null :: ts) = firstNonNull ts) ∧
    (∀ ts : List DataType, ts.all (fun t => decide (t = DataType.Null)) = true →
      firstNonNull ts = DataType.Null) ∧
    MakeArray.return_type [DataType.Null, DataType.Utf8] =
      RTResult.ok (DataType.List "item" DataType.Utf8 true) := by
  refine ⟨rfl, ?_, ?_, ?_, fun ts h => firstNonNull_all_null ts h, by decide⟩
  · intro ts h
    cases ts with
    | nil => exact absurd rfl h
    | cons t rest => rfl
  · intro t ts h
    cases t <;> first
      | exact absurd rfl h
      | simp [firstNonNull, DataType.equals_datatype]
  · intro ts
    simp [firstNonNull, DataType.equals_datatype]

/-- C4 (witness): the non-empty case at the concrete input `[Null, Utf8]`,
whose first non-`Null` argument type is `Utf8`. -/
theorem c4_witness :
    ([DataType.Null, DataType.Utf8] ≠ ([] : List DataType)) ∧
    MakeArray.return_type [DataType.Null, DataType.Utf8] =
      RTResult.ok (DataType.List "item"
        (firstNonNull [DataType.Null, DataType.Utf8]) true) :=
  ⟨by decide, c4_make_array_return_type.2.1 _ (by decide)⟩

/-- C5: `Cardinality::return_type` and `ArrayNdims::return_type` return the
unsigned scalar kind `UInt64` on any single container-kind argument (`List`,
`LargeList`, or `FixedSizeList`, of any element type, depth or size), and on
any single non-container argument they return a planning failure whose
message names the accepted container kinds. -/
theorem c5_cardinality_ndims_return_type :
    (∀ t : DataType, isContainer t = true →
      Cardinality.return_type [t] = RTResult.ok DataType.UInt64 ∧
      ArrayNdims.return_type [t] = RTResult.ok DataType.UInt64) ∧
    (∀ t : DataType, isContainer t = false →
      Cardinality.return_type [t] = RTResult.err (FnError.plan
        "The cardinality function can only accept List/LargeList/FixedSizeList.") ∧
      ArrayNdims.return_type [t] = RTResult.err (FnError.plan
        "The array_ndims function can only accept List/LargeList/FixedSizeList.")) := by
  constructor <;> intro t h <;> cases t <;> simp [isContainer] at h <;> exact ⟨rfl, rfl⟩

/-- C5 (witness): both conjuncts at concrete inputs — the container
`FixedSizeList(Int64, 3)` is accepted with result `UInt64` and the
non-container `Utf8` is rejected with the planning failure naming the
accepted kinds. -/
theorem c5_witness :
    isContainer (DataType.FixedSizeList "item" DataType.Int64 true 3) = true ∧
    Cardinality.return_type [DataType.FixedSizeList "item" DataType.Int64 true 3] =
      RTResult.ok DataType.UInt64 ∧
    ArrayNdims.return_type [DataType.FixedSizeList "item" DataType.Int64 true 3] =
      RTResult.ok DataType.UInt64 ∧
    isContainer DataType.Utf8 = false ∧
    Cardinality.return_type [DataType.Utf8] = RTResult.err (FnError.plan
      "The cardinality function can only accept List/LargeList/FixedSizeList.") :=
  ⟨by decide,
    (c5_cardinality_ndims_return_type.1 _ (by decide)).1,
    (c5_cardinality_ndims_return_type.1 _ (by decide)).2,
    by decide,
    (c5_cardinality_ndims_return_type.2 _ (by decide)).1⟩

/-- C6: when the first runtime element type is neither `Int64` nor `Date32`,
the dispatchers of `range` and `generate_series` return the execution failure
`exec_err!("unsupported type for range")`, invoke no kernel, and that failure
kind is distinct from the planning-failure kind raised by return-type
resolvers. -/
theorem c6_range_dispatch_exec_failure :
    ∀ (t : DataType) (rest : List DataType), t ≠ DataType.Int64 → t ≠ DataType.Date32 →
      Range.invoke (t :: rest) = InvokeResult.err (FnError.exec "unsupported type for range") ∧
      GenSeries.invoke (t :: rest) =
        InvokeResult.err (FnError.exec "unsupported type for range") ∧
      (∀ (k : KernelId) (b : Bool), Range.invoke (t :: rest) ≠ InvokeResult.kernel k b) ∧
      (∀ (k : KernelId) (b : Bool), GenSeries.invoke (t :: rest) ≠ InvokeResult.kernel k b) ∧
      (∀ m : String, FnError.exec "unsupported type for range" ≠ FnError.plan m) := by
  intro t rest h1 h2
  cases t <;> simp_all [Range.invoke, GenSeries.invoke]

/-- C6 (witness): the dispatchers at the concrete first runtime type `Utf8`. -/
theorem c6_witness :
    Range.invoke [DataType.Utf8] =
      InvokeResult.err (FnError.exec "unsupported type for range") ∧
    GenSeries.invoke [DataType.Utf8] =
      InvokeResult.err (FnError.exec "unsupported type for range") :=
  ⟨(c6_range_dispatch_exec_failure DataType.Utf8 [] (by decide) (by decide)).1,
    (c6_range_dispatch_exec_failure DataType.Utf8 [] (by decide) (by decide)).2.1⟩

/-- C7: `ArrayAppend::return_type` returns its first argument's type
unchanged and `ArrayPrepend::return_type` returns its second argument's type
unchanged, whatever those types are. -/
theorem c7_append_prepend_identity :
    (∀ (t : DataType) (rest : List DataType),
      ArrayAppend.return_type (t :: rest) = RTResult.ok t) ∧
    (∀ (t u : DataType) (rest : List DataType),
      ArrayPrepend.return_type (t :: u :: rest) = RTResult.ok u) :=
  ⟨fun _ _ => rfl, fun _ _ _ => rfl⟩

/-- C8: for each of the ten Function Descriptors in the module, the alias
list is non-empty and contains the descriptor's canonical name. -/
theorem c8_aliases_contain_name :
    (ArrayToString.aliases ≠ [] ∧ ArrayToString.name ∈ ArrayToString.aliases) ∧
    (Range.aliases ≠ [] ∧ Range.name ∈ Range.aliases) ∧
    (GenSeries.aliases ≠ [] ∧ GenSeries.name ∈ GenSeries.aliases) ∧
    (ArrayDims.aliases ≠ [] ∧ ArrayDims.name ∈ ArrayDims.aliases) ∧
    (Cardinality.aliases ≠ [] ∧ Cardinality.name ∈ Cardinality.aliases) ∧
    (ArrayNdims.aliases ≠ [] ∧ ArrayNdims.name ∈ ArrayNdims.aliases) ∧
    (ArrayAppend.aliases ≠ [] ∧ ArrayAppend.name ∈ ArrayAppend.aliases) ∧
    (ArrayPrepend.aliases ≠ [] ∧ ArrayPrepend.name ∈ ArrayPrepend.aliases) ∧
    (ArrayConcat.aliases ≠ [] ∧ ArrayConcat.name ∈ ArrayConcat.aliases) ∧
    (MakeArray.aliases ≠ [] ∧ MakeArray.name ∈ MakeArray.aliases) := by
  decide

/-- C9: the return-type resolvers of `range` and `generate_series` agree on
every argument-type list (both yield `List` of the first argument's type,
nullable), and their dispatchers select kernels by the same runtime-type
cases, differing only in the inclusivity flag passed to the kernel. -/
theorem c9_range_genseries_equivalence :
    (∀ ts : List DataType, Range.return_type ts = GenSeries.return_type ts) ∧
    (∀ (t : DataType) (rest : List DataType),
      Range.return_type (t :: rest) = RTResult.ok (DataType.List "item" t true)) ∧
    (∀ ts : List DataType, GenSeries.invoke ts = setInclusive (Range.invoke ts) true) ∧
    (∀ ts : List DataType, Range.invoke ts = setInclusive (GenSeries.invoke ts) false) := by
  refine ⟨?_, fun _ _ => rfl, ?_, ?_⟩ <;> intro ts <;>
    ( cases ts with
      | nil => rfl
      | cons t rest => cases t <;> rfl )

end DFArrayUdf
